import Mathlib

/-!
Shallow embedding of the OpenField QA alerting and survey-aggregation core
(`supervision.py`, `surveys.py`) together with the store operations the
claims refer to.  Python floats are modelled as exact rationals (`ℚ`);
SQL `NULL`-able text columns are `Option String`; row lists stand for the
relational tables in insertion order.
-/

namespace OpenField

open scoped List

/-- Python `str.upper()` restricted to ASCII, as used on status and
confidence strings. -/
def pyUpper (s : String) : String := ⟨s.data.map Char.toUpper⟩

/-- Characters removed by Python `str.strip()`. -/
def stripWS (l : List Char) : List Char :=
  ((l.dropWhile Char.isWhitespace).reverse.dropWhile Char.isWhitespace).reverse

/-- Python `str.strip()`: drop leading and trailing whitespace. -/
def pyStrip (s : String) : String := ⟨stripWS s.data⟩

/-- Python `x or ""` applied to a nullable text column. -/
def orBlank (o : Option String) : String := o.getD ""

/-- Row of the `facilities` table (the fields the core reads). -/
structure Facility where
  id : Nat
  name : String
  deriving DecidableEq

/-- Row of the `surveys` table. -/
structure Survey where
  id : Nat
  facility_id : Nat
  template_id : Option Nat
  survey_type : String
  enumerator_name : String
  status : String
  created_at : String
  deriving DecidableEq

/-- Row of the `survey_answers` table. -/
structure Answer where
  id : Nat
  survey_id : Nat
  template_question_id : Option Nat
  question : String
  answer : String
  answer_source : Option String
  confidence_level : Option String
  is_missing : Nat
  missing_reason : Option String
  created_at : String
  deriving DecidableEq

/-- The relational store: the three tables the core reads. -/
structure DB where
  facilities : List Facility
  surveys : List Survey
  answers : List Answer
  deriving DecidableEq

/-- Rows of `survey_answers` for one survey, in table order
(`WHERE survey_id = ?`). -/
def answersOf (db : DB) (sid : Nat) : List Answer :=
  db.answers.filter (fun a => a.survey_id == sid)

/-- The five-field QA summary computed by `get_survey_details`
(supervision.py lines 153-159) over a survey's answer rows. -/
structure QASummary where
  total_answers : Nat
  missing_count : Nat
  low_confidence_count : Nat
  no_source_count : Nat
  no_confidence_count : Nat
  deriving DecidableEq

/-- Quality Summary Calculator: the `qa` dict built in `get_survey_details`.
`missing` counts rows with `is_missing == 1`; low confidence compares
`(confidence_level or "").strip().upper()` with `"LOW"`; the two `no_*`
counts test `(field or "").strip()` for emptiness. -/
def qualitySummary (answers : List Answer) : QASummary :=
  { total_answers := answers.length
    missing_count := answers.countP (fun a => a.is_missing == 1)
    low_confidence_count :=
      answers.countP (fun a => pyUpper (pyStrip (orBlank a.confidence_level)) == "LOW")
    no_source_count := answers.countP (fun a => pyStrip (orBlank a.answer_source) == "")
    no_confidence_count := answers.countP (fun a => pyStrip (orBlank a.confidence_level) == "") }

/-- Result row of the per-survey aggregate query issued by
`qa_alerts_dashboard` (supervision.py lines 199-220). -/
structure AggRow where
  total : Nat
  missing : Nat
  low_conf : Nat
  no_source : Nat
  no_conf : Nat
  deriving DecidableEq

/-- The dedicated SQL aggregate per survey: `COUNT(*)`, `SUM(is_missing)`,
and the three `CASE WHEN` sums.  SQL `=` is case-sensitive and does not
strip; `IS NULL OR = ''` tests exactly null or the empty string. -/
def sqlAggregate (db : DB) (sid : Nat) : AggRow :=
  let rows := answersOf db sid
  { total := rows.length
    missing := (rows.map (fun a => a.is_missing)).sum
    low_conf := rows.countP (fun a => a.confidence_level == some "LOW")
    no_source := rows.countP (fun a => a.answer_source == none || a.answer_source == some "")
    no_conf := rows.countP (fun a => a.confidence_level == none || a.confidence_level == some "") }

/-- Percentage computed by the Alert Engine: `(count * 100.0) / total`. -/
def pctOf (count total : Nat) : ℚ := (count * 100 : ℚ) / total

/-- Flag list built by the Alert Engine: the four thresholds are tested with
`>=` in the fixed order MISSING, LOW_CONF, NO_SOURCE, NO_CONF. -/
def alertFlags (mp lp sp cp tm tl ts tc : ℚ) : List String :=
  (if mp ≥ tm then ["MISSING"] else []) ++
  (if lp ≥ tl then ["LOW_CONF"] else []) ++
  (if sp ≥ ts then ["NO_SOURCE"] else []) ++
  (if cp ≥ tc then ["NO_CONF"] else [])

/-- Facility display name: `SELECT name FROM facilities WHERE id=? LIMIT 1`,
with placeholder `"-"` when there is no matching row. -/
def facilityNameOf (db : DB) (fid : Nat) : String :=
  match db.facilities.find? (fun f => f.id == fid) with
  | some f => f.name
  | none => "-"

/-- One alert record of `qa_alerts_dashboard`. -/
structure Alert where
  survey_id : Nat
  facility_id : Nat
  facility_name : String
  template_id : Option Nat
  survey_type : String
  enumerator_name : String
  status : String
  created_at : String
  total_answers : Nat
  flags : List String
  severity : ℚ
  deriving DecidableEq

/-- Loop body of `qa_alerts_dashboard` for one survey row: skip on zero
total, compute the four percentages, skip on empty flag list, otherwise
build the alert record with `severity` the sum of the four percentages. -/
def surveyAlert (db : DB) (tm tl ts tc : ℚ) (s : Survey) : Option Alert :=
  let m := sqlAggregate db s.id
  if m.total = 0 then none
  else
    let missing_pct := pctOf m.missing m.total
    let low_conf_pct := pctOf m.low_conf m.total
    let no_source_pct := pctOf m.no_source m.total
    let no_conf_pct := pctOf m.no_conf m.total
    let flags := alertFlags missing_pct low_conf_pct no_source_pct no_conf_pct tm tl ts tc
    if flags = [] then none
    else
      some { survey_id := s.id
             facility_id := s.facility_id
             facility_name := facilityNameOf db s.facility_id
             template_id := s.template_id
             survey_type := s.survey_type
             enumerator_name := s.enumerator_name
             status := s.status
             created_at := s.created_at
             total_answers := m.total
             flags := flags
             severity := missing_pct + low_conf_pct + no_source_pct + no_conf_pct }

/-- Insert into a list kept in descending `key` order, before the first
element whose key is not larger (the stable position). -/
def insertByDesc {α β : Type} [LinearOrder β] (key : α → β) (x : α) : List α → List α
  | [] => [x]
  | y :: ys => if key y ≤ key x then x :: y :: ys else y :: insertByDesc key x ys

/-- Stable sort by `key`, descending: the embedding of Python
`list.sort(key=..., reverse=True)` and of SQL `ORDER BY ... DESC`. -/
def sortByDesc {α β : Type} [LinearOrder β] (key : α → β) : List α → List α
  | [] => []
  | x :: xs => insertByDesc key x (sortByDesc key xs)

/-- Insert into a list kept in ascending `key` order. -/
def insertByAsc {α β : Type} [LinearOrder β] (key : α → β) (x : α) : List α → List α
  | [] => [x]
  | y :: ys => if key x ≤ key y then x :: y :: ys else y :: insertByAsc key x ys

/-- Stable sort by `key`, ascending: the embedding of SQL `ORDER BY ... ASC`. -/
def sortByAsc {α β : Type} [LinearOrder β] (key : α → β) : List α → List α
  | [] => []
  | x :: xs => insertByAsc key x (sortByAsc key xs)

/-- Normalisation of the status filter:
`(status_filter or "COMPLETED").strip().upper()`. -/
def normalizeStatus (status_filter : String) : String :=
  pyUpper (pyStrip (if status_filter = "" then "COMPLETED" else status_filter))

/-- The Alert Engine `qa_alerts_dashboard` (supervision.py lines 164-261):
scan surveys with the requested status newest-first, build the per-survey
alerts, sort by severity descending (stable), truncate to `limit`. -/
def qa_alerts_dashboard (db : DB) (status_filter : String)
    (tm tl ts tc : ℚ) (limit : Nat) : List Alert :=
  let sf := normalizeStatus status_filter
  let surveys := sortByDesc (fun s : Survey => s.id)
    (db.surveys.filter (fun s => s.status == sf))
  let alerts := surveys.filterMap (surveyAlert db tm tl ts tc)
  (sortByDesc (fun a : Alert => a.severity) alerts).take limit

/-- Header triple returned by `get_survey_details`. -/
structure Header where
  sid : Nat
  facility_id : Nat
  facility_name : String
  template_id : Option Nat
  survey_type : String
  enumerator_name : String
  status : String
  created_at : String
  deriving DecidableEq

/-- Survey Detail Assembly `get_survey_details` (supervision.py lines
74-161): the header row comes from `surveys JOIN facilities` on
`facility_id`, so it is absent when either the survey or its facility row
is missing; answers are fetched `ORDER BY id ASC`; the QA summary is the
Quality Summary Calculator over those rows.  The error message is the
`ValueError("Survey not found.")` raised when the join yields no row. -/
def get_survey_details (db : DB) (sid : Nat) :
    Except String (Header × List Answer × QASummary) :=
  match db.surveys.find? (fun s => s.id == sid) with
  | none => .error "Survey not found."
  | some s =>
    match db.facilities.find? (fun f => f.id == s.facility_id) with
    | none => .error "Survey not found."
    | some f =>
      let answers := sortByAsc (fun a : Answer => a.id) (answersOf db sid)
      .ok ({ sid := s.id
             facility_id := s.facility_id
             facility_name := f.name
             template_id := s.template_id
             survey_type := s.survey_type
             enumerator_name := s.enumerator_name
             status := s.status
             created_at := s.created_at },
           answers, qualitySummary answers)

/-- One output record of the Enumerator Performance Aggregator. -/
structure EnumPerf where
  enumerator_name : String
  total_answers : Nat
  flags : List String
  severity : ℚ
  deriving DecidableEq

/-- Surveys matching the (already normalised) status filter. -/
def matchingSurveys (db : DB) (sf : String) : List Survey :=
  db.surveys.filter (fun s => s.status == sf)

/-- Union of all answers across one enumerator's surveys matching the
status filter. -/
def enumRows (db : DB) (sf : String) (e : String) : List Answer :=
  db.answers.filter (fun a =>
    (matchingSurveys db sf).any (fun s => s.enumerator_name == e && a.survey_id == s.id))

/-- Modelled from the spec: the Answer-Store aggregate contract applied to
the union of one enumerator's answers (the same five counts the Alert
Engine's dedicated aggregate query computes, over `enumRows`). -/
def enumAgg (db : DB) (sf : String) (e : String) : AggRow :=
  let rows := enumRows db sf e
  { total := rows.length
    missing := (rows.map (fun a => a.is_missing)).sum
    low_conf := rows.countP (fun a => a.confidence_level == some "LOW")
    no_source := rows.countP (fun a => a.answer_source == none || a.answer_source == some "")
    no_conf := rows.countP (fun a => a.confidence_level == none || a.confidence_level == some "") }

/-- Modelled from the spec: `enumerator_performance_dashboard` is imported
by the CLI menu from `supervision` but its definition is not among the
sources; spec section 4.3 describes one record per `enumerator_name`,
aggregating the union of that enumerator's answers across surveys matching
the status filter, with the Alert Engine's percentage, flag and severity
rules and skip rules.  This builds the record for one enumerator. -/
def enumPerfRecord (db : DB) (sf : String) (tm tl ts tc : ℚ) (e : String) :
    Option EnumPerf :=
  let m := enumAgg db sf e
  if m.total = 0 then none
  else
    let missing_pct := pctOf m.missing m.total
    let low_conf_pct := pctOf m.low_conf m.total
    let no_source_pct := pctOf m.no_source m.total
    let no_conf_pct := pctOf m.no_conf m.total
    let flags := alertFlags missing_pct low_conf_pct no_source_pct no_conf_pct tm tl ts tc
    if flags = [] then none
    else
      some { enumerator_name := e
             total_answers := m.total
             flags := flags
             severity := missing_pct + low_conf_pct + no_source_pct + no_conf_pct }

/-- Modelled from the spec: the Enumerator Performance Aggregator
(spec section 4.3), grouping by `enumerator_name` over surveys matching
the status filter, one record per enumerator, with the Alert Engine's
skip rules and sort/truncate discipline. -/
def enumerator_performance_dashboard (db : DB) (status_filter : String)
    (tm tl ts tc : ℚ) (limit : Nat) : List EnumPerf :=
  let sf := normalizeStatus status_filter
  let names := ((matchingSurveys db sf).map (fun s => s.enumerator_name)).dedup
  let recs := names.filterMap (enumPerfRecord db sf tm tl ts tc)
  (sortByDesc (fun r : EnumPerf => r.severity) recs).take limit

/-- Mutable store state: the tables plus the autoincrement counters. -/
structure StoreState where
  db : DB
  next_facility_id : Nat
  next_survey_id : Nat
  next_answer_id : Nat
  deriving DecidableEq

/-- The `create_survey` operation (surveys.py lines 17-46): inserts a
header row with status `'DRAFT'` and returns the new row id. -/
def create_survey (st : StoreState) (facility_id : Nat)
    (survey_type enumerator_name : String) (template_id : Option Nat)
    (now : String) : StoreState × Nat :=
  let s : Survey :=
    { id := st.next_survey_id
      facility_id := facility_id
      template_id := template_id
      survey_type := survey_type
      enumerator_name := enumerator_name
      status := "DRAFT"
      created_at := now }
  ({ st with
      db := { st.db with surveys := st.db.surveys ++ [s] }
      next_survey_id := st.next_survey_id + 1 },
   st.next_survey_id)

/-- The `add_answer` operation (surveys.py lines 49-108): strip the
question and answer, raise when the question is blank, raise when the
answer is blank and `is_missing` is falsy, otherwise insert one row and
return its id.  Errors are raised before any write, so the state is
returned unchanged on the error branches. -/
def add_answer (st : StoreState) (survey_id : Nat) (question answer : String)
    (template_question_id : Option Nat)
    (answer_source confidence_level : Option String)
    (is_missing : Nat) (missing_reason : Option String) (now : String) :
    StoreState × Except String Nat :=
  let q := pyStrip question
  let a := pyStrip answer
  if q = "" then (st, .error "question is required")
  else if a = "" ∧ is_missing = 0 then
    (st, .error "answer is required unless is_missing=1")
  else
    let row : Answer :=
      { id := st.next_answer_id
        survey_id := survey_id
        template_question_id := template_question_id
        question := q
        answer := a
        answer_source := answer_source
        confidence_level := confidence_level
        is_missing := is_missing
        missing_reason := missing_reason
        created_at := now }
    ({ st with
        db := { st.db with answers := st.db.answers ++ [row] }
        next_answer_id := st.next_answer_id + 1 },
     .ok st.next_answer_id)

/-- The `complete_survey` operation (surveys.py lines 111-122):
`UPDATE surveys SET status='COMPLETED' WHERE id = ?`. -/
def complete_survey (st : StoreState) (survey_id : Nat) : StoreState :=
  { st with
      db := { st.db with
        surveys := st.db.surveys.map (fun s =>
          if s.id == survey_id then { s with status := "COMPLETED" } else s) } }

/-- The `add_facility` operation: inserts a facility row (only the fields
the core reads are modelled). -/
def add_facility (st : StoreState) (name : String) : StoreState × Nat :=
  ({ st with
      db := { st.db with facilities := st.db.facilities ++ [{ id := st.next_facility_id, name := name }] }
      next_facility_id := st.next_facility_id + 1 },
   st.next_facility_id)

/-- The store mutations the repository offers that can touch the three
tables the core reads (template and export code never writes to
`surveys`). -/
inductive Op where
  | createSurvey (facility_id : Nat) (survey_type enumerator_name : String)
      (template_id : Option Nat) (now : String)
  | addAnswer (survey_id : Nat) (question answer : String)
      (template_question_id : Option Nat)
      (answer_source confidence_level : Option String)
      (is_missing : Nat) (missing_reason : Option String) (now : String)
  | completeSurvey (survey_id : Nat)
  | addFacility (name : String)

/-- Apply one store operation. -/
def applyOp (st : StoreState) : Op → StoreState
  | .createSurvey fid ty en tid now => (create_survey st fid ty en tid now).1
  | .addAnswer sid q a tqid src conf miss reason now =>
      (add_answer st sid q a tqid src conf miss reason now).1
  | .completeSurvey sid => complete_survey st sid
  | .addFacility name => (add_facility st name).1

/-- Apply a sequence of store operations, oldest first. -/
def applyOps (st : StoreState) (ops : List Op) : StoreState :=
  ops.foldl applyOp st

/-- Status of a survey in a store state, as read by the queries
(`WHERE id = ?`, first matching row). -/
def statusOf (st : StoreState) (sid : Nat) : Option String :=
  (st.db.surveys.find? (fun s => s.id == sid)).map (fun s => s.status)

/-- The alert record `surveyAlert` builds when neither skip rule fires. -/
def mkAlert (db : DB) (tm tl ts tc : ℚ) (s : Survey) : Alert :=
  let m := sqlAggregate db s.id
  { survey_id := s.id
    facility_id := s.facility_id
    facility_name := facilityNameOf db s.facility_id
    template_id := s.template_id
    survey_type := s.survey_type
    enumerator_name := s.enumerator_name
    status := s.status
    created_at := s.created_at
    total_answers := m.total
    flags := alertFlags (pctOf m.missing m.total) (pctOf m.low_conf m.total)
      (pctOf m.no_source m.total) (pctOf m.no_conf m.total) tm tl ts tc
    severity := pctOf m.missing m.total + pctOf m.low_conf m.total
      + pctOf m.no_source m.total + pctOf m.no_conf m.total }

/-- The record `enumPerfRecord` builds when neither skip rule fires. -/
def mkEnumPerf (db : DB) (sf : String) (tm tl ts tc : ℚ) (e : String) : EnumPerf :=
  let m := enumAgg db sf e
  { enumerator_name := e
    total_answers := m.total
    flags := alertFlags (pctOf m.missing m.total) (pctOf m.low_conf m.total)
      (pctOf m.no_source m.total) (pctOf m.no_conf m.total) tm tl ts tc
    severity := pctOf m.missing m.total + pctOf m.low_conf m.total
      + pctOf m.no_source m.total + pctOf m.no_conf m.total }

/-- Concrete store used to exercise the theorems: survey 1 has one missing
answer with source and HIGH confidence, survey 2 has one present answer
with source and LOW confidence, survey 3 has no answers at all. -/
def exA1 : Answer :=
  { id := 1, survey_id := 1, template_question_id := none, question := "Q", answer := "A"
    answer_source := some "OBSERVATION", confidence_level := some "HIGH"
    is_missing := 1, missing_reason := some "REFUSED", created_at := "t" }

/-- Present answer of survey 2, LOW confidence, source given. -/
def exA2 : Answer :=
  { id := 2, survey_id := 2, template_question_id := none, question := "Q", answer := "A"
    answer_source := some "OBSERVATION", confidence_level := some "LOW"
    is_missing := 0, missing_reason := none, created_at := "t" }

/-- Survey 1, COMPLETED, enumerator E1. -/
def exS1 : Survey :=
  { id := 1, facility_id := 1, template_id := none, survey_type := "T"
    enumerator_name := "E1", status := "COMPLETED", created_at := "t" }

/-- Survey 2, COMPLETED, enumerator E2. -/
def exS2 : Survey :=
  { id := 2, facility_id := 1, template_id := none, survey_type := "T"
    enumerator_name := "E2", status := "COMPLETED", created_at := "t" }

/-- Survey 3, COMPLETED, enumerator E3, zero answers. -/
def exS3 : Survey :=
  { id := 3, facility_id := 1, template_id := none, survey_type := "T"
    enumerator_name := "E3", status := "COMPLETED", created_at := "t" }

/-- The example store. -/
def exDB : DB :=
  { facilities := [{ id := 1, name := "F" }]
    surveys := [exS1, exS2, exS3]
    answers := [exA1, exA2] }

/-- Alert produced for survey 1 (100 percent missing). -/
def exAlert1 : Alert :=
  { survey_id := 1, facility_id := 1, facility_name := "F", template_id := none
    survey_type := "T", enumerator_name := "E1", status := "COMPLETED", created_at := "t"
    total_answers := 1, flags := ["MISSING"], severity := 100 }

/-- Alert produced for survey 2 (100 percent low confidence) once the
low-confidence threshold drops to 100. -/
def exAlert2 : Alert :=
  { survey_id := 2, facility_id := 1, facility_name := "F", template_id := none
    survey_type := "T", enumerator_name := "E2", status := "COMPLETED", created_at := "t"
    total_answers := 1, flags := ["LOW_CONF"], severity := 100 }

/-- Per-enumerator record for E1 in the example store. -/
def exEnum1 : EnumPerf :=
  { enumerator_name := "E1", total_answers := 1, flags := ["MISSING"], severity := 100 }

/-- Store whose single answer has confidence written `"low"`: counted by
the Quality Summary Calculator but not by the SQL aggregate. -/
def cexC2db : DB :=
  { facilities := [{ id := 1, name := "F" }]
    surveys := [exS1]
    answers := [{ id := 1, survey_id := 1, template_question_id := none, question := "Q"
                  answer := "A", answer_source := some "OBSERVATION"
                  confidence_level := some "low", is_missing := 0, missing_reason := none
                  created_at := "t" }] }

/-- Store holding a survey whose `facility_id` matches no facility row. -/
def cexC8db : DB :=
  { facilities := []
    surveys := [{ id := 1, facility_id := 99, template_id := none, survey_type := "T"
                  enumerator_name := "E", status := "DRAFT", created_at := "t" }]
    answers := [] }

/-- Example store state wrapping `exDB`. -/
def exState : StoreState :=
  { db := exDB, next_facility_id := 2, next_survey_id := 4, next_answer_id := 3 }

section Sorting

variable {α β : Type} [LinearOrder β] (key : α → β)

lemma insertByDesc_perm (x : α) : ∀ l : List α, List.Perm (insertByDesc key x l) (x :: l)
  | [] => List.Perm.refl _
  | y :: ys => by
    rw [insertByDesc]
    by_cases h : key y ≤ key x
    · rw [if_pos h]
    · rw [if_neg h]
      exact ((insertByDesc_perm x ys).cons y).trans (List.Perm.swap x y ys)

lemma sortByDesc_perm : ∀ l : List α, List.Perm (sortByDesc key l) l
  | [] => List.Perm.refl _
  | x :: xs => (insertByDesc_perm key x (sortByDesc key xs)).trans
      ((sortByDesc_perm xs).cons x)

lemma mem_insertByDesc {x z : α} {l : List α} :
    z ∈ insertByDesc key x l ↔ z = x ∨ z ∈ l := by
  rw [(insertByDesc_perm key x l).mem_iff, List.mem_cons]

lemma mem_sortByDesc {z : α} {l : List α} : z ∈ sortByDesc key l ↔ z ∈ l :=
  (sortByDesc_perm key l).mem_iff

lemma length_sortByDesc (l : List α) : (sortByDesc key l).length = l.length :=
  (sortByDesc_perm key l).length_eq

lemma insertByDesc_sorted (x : α) : ∀ l : List α,
    l.Pairwise (fun a b => key b ≤ key a) →
    (insertByDesc key x l).Pairwise (fun a b => key b ≤ key a)
  | [], _ => by simp [insertByDesc]
  | y :: ys, h => by
    rw [List.pairwise_cons] at h
    obtain ⟨hy, hys⟩ := h
    rw [insertByDesc]
    by_cases hxy : key y ≤ key x
    · rw [if_pos hxy]
      refine List.Pairwise.cons ?_ (List.Pairwise.cons hy hys)
      intro z hz
      rcases List.mem_cons.mp hz with rfl | hz
      · exact hxy
      · exact le_trans (hy z hz) hxy
    · rw [if_neg hxy]
      refine List.Pairwise.cons ?_ (insertByDesc_sorted x ys hys)
      intro z hz
      rcases (mem_insertByDesc key).mp hz with rfl | hz
      · exact le_of_not_le hxy
      · exact hy z hz

lemma sortByDesc_sorted : ∀ l : List α,
    (sortByDesc key l).Pairwise (fun a b => key b ≤ key a)
  | [] => List.Pairwise.nil
  | x :: xs => insertByDesc_sorted key x _ (sortByDesc_sorted xs)

variable (S : α → α → Prop)

lemma insertByDesc_lex (x : α) : ∀ l : List α,
    l.Pairwise (fun a b => key b ≤ key a) →
    l.Pairwise (fun a b => key b < key a ∨ (key a = key b ∧ S a b)) →
    (∀ y ∈ l, S x y) →
    (insertByDesc key x l).Pairwise (fun a b => key b < key a ∨ (key a = key b ∧ S a b))
  | [], _, _, _ => by simp [insertByDesc]
  | y :: ys, hsor, hq, hx => by
    rw [List.pairwise_cons] at hsor hq
    obtain ⟨hy, hys⟩ := hsor
    obtain ⟨hqy, hqys⟩ := hq
    rw [insertByDesc]
    by_cases hxy : key y ≤ key x
    · rw [if_pos hxy]
      refine List.Pairwise.cons ?_ (List.Pairwise.cons hqy hqys)
      intro z hz
      rcases List.mem_cons.mp hz with rfl | hz
      · rcases lt_or_eq_of_le hxy with h | h
        · exact Or.inl h
        · exact Or.inr ⟨h.symm, hx z (List.mem_cons_self z ys)⟩
      · have hzx : key z ≤ key x := le_trans (hy z hz) hxy
        rcases lt_or_eq_of_le hzx with h | h
        · exact Or.inl h
        · exact Or.inr ⟨h.symm, hx z (List.mem_cons_of_mem y hz)⟩
    · rw [if_neg hxy]
      have hxlt : key x < key y := lt_of_not_le hxy
      refine List.Pairwise.cons ?_
        (insertByDesc_lex x ys hys hqys (fun z hz => hx z (List.mem_cons_of_mem y hz)))
      intro z hz
      rcases (mem_insertByDesc key).mp hz with rfl | hz
      · exact Or.inl hxlt
      · exact hqy z hz

lemma sortByDesc_lex : ∀ l : List α, l.Pairwise S →
    (sortByDesc key l).Pairwise (fun a b => key b < key a ∨ (key a = key b ∧ S a b))
  | [], _ => List.Pairwise.nil
  | x :: xs, h => by
    rw [List.pairwise_cons] at h
    obtain ⟨hx, hxs⟩ := h
    exact insertByDesc_lex key S x _ (sortByDesc_sorted key _) (sortByDesc_lex xs hxs)
      (fun z hz => hx z ((mem_sortByDesc key).mp hz))

end Sorting

section SortingAsc

variable {α β : Type} [LinearOrder β] (key : α → β)

lemma sortByAsc_eq_self : ∀ l : List α,
    l.Pairwise (fun a b => key a ≤ key b) → sortByAsc key l = l
  | [], _ => rfl
  | x :: xs, h => by
    rw [List.pairwise_cons] at h
    obtain ⟨hx, hxs⟩ := h
    rw [sortByAsc, sortByAsc_eq_self xs hxs]
    cases xs with
    | nil => rfl
    | cons y ys => rw [insertByAsc, if_pos (hx y (List.mem_cons_self y ys))]

end SortingAsc

section AlertEngine

lemma surveyAlert_eq (db : DB) (tm tl ts tc : ℚ) (s : Survey) :
    surveyAlert db tm tl ts tc s =
      if (sqlAggregate db s.id).total = 0 then none
      else if (mkAlert db tm tl ts tc s).flags = [] then none
      else some (mkAlert db tm tl ts tc s) := rfl

lemma surveyAlert_some {db : DB} {tm tl ts tc : ℚ} {s : Survey} {a : Alert}
    (h : surveyAlert db tm tl ts tc s = some a) :
    a = mkAlert db tm tl ts tc s ∧ (sqlAggregate db s.id).total ≠ 0 ∧ a.flags ≠ [] := by
  rw [surveyAlert_eq] at h
  split_ifs at h with h1 h2
  refine ⟨(Option.some.inj h).symm, h1, ?_⟩
  exact (Option.some.inj h) ▸ h2

lemma mem_alertFlags_missing {mp lp sp cp tm tl ts tc : ℚ} :
    "MISSING" ∈ alertFlags mp lp sp cp tm tl ts tc ↔ mp ≥ tm := by
  rw [alertFlags]
  split_ifs <;> simp_all

lemma mem_alertFlags_low_conf {mp lp sp cp tm tl ts tc : ℚ} :
    "LOW_CONF" ∈ alertFlags mp lp sp cp tm tl ts tc ↔ lp ≥ tl := by
  rw [alertFlags]
  split_ifs <;> simp_all

lemma mem_alertFlags_no_source {mp lp sp cp tm tl ts tc : ℚ} :
    "NO_SOURCE" ∈ alertFlags mp lp sp cp tm tl ts tc ↔ sp ≥ ts := by
  rw [alertFlags]
  split_ifs <;> simp_all

lemma mem_alertFlags_no_conf {mp lp sp cp tm tl ts tc : ℚ} :
    "NO_CONF" ∈ alertFlags mp lp sp cp tm tl ts tc ↔ cp ≥ tc := by
  rw [alertFlags]
  split_ifs <;> simp_all

lemma ite_singleton_sublist {γ : Type} {c d : Prop} [Decidable c] [Decidable d]
    (x : γ) (h : c → d) :
    (if c then [x] else []) <+ (if d then [x] else []) := by
  split_ifs with hc hd
  · exact List.Sublist.refl _
  · exact absurd (h hc) hd
  · exact List.nil_sublist _
  · exact List.Sublist.refl _

lemma alertFlags_sublist (mp lp sp cp tm tl ts tc : ℚ) :
    alertFlags mp lp sp cp tm tl ts tc <+ ["MISSING", "LOW_CONF", "NO_SOURCE", "NO_CONF"] := by
  have h : (["MISSING", "LOW_CONF", "NO_SOURCE", "NO_CONF"] : List String)
      = ["MISSING"] ++ ["LOW_CONF"] ++ ["NO_SOURCE"] ++ ["NO_CONF"] := rfl
  rw [alertFlags, h]
  refine List.Sublist.append (List.Sublist.append (List.Sublist.append ?_ ?_) ?_) ?_ <;>
    · split_ifs
      · exact List.Sublist.refl _
      · exact List.nil_sublist _

lemma alertFlags_eq_nil {mp lp sp cp tm tl ts tc : ℚ}
    (h1 : mp < tm) (h2 : lp < tl) (h3 : sp < ts) (h4 : cp < tc) :
    alertFlags mp lp sp cp tm tl ts tc = [] := by
  rw [alertFlags, if_neg (not_le.mpr h1), if_neg (not_le.mpr h2),
    if_neg (not_le.mpr h3), if_neg (not_le.mpr h4)]
  rfl

lemma alertFlags_mono {mp lp sp cp tm tl ts tc tm' tl' ts' tc' : ℚ}
    (h1 : tm' ≤ tm) (h2 : tl' ≤ tl) (h3 : ts' ≤ ts) (h4 : tc' ≤ tc) :
    alertFlags mp lp sp cp tm tl ts tc <+ alertFlags mp lp sp cp tm' tl' ts' tc' := by
  rw [alertFlags, alertFlags]
  exact List.Sublist.append
    (List.Sublist.append
      (List.Sublist.append (ite_singleton_sublist _ (le_trans h1))
        (ite_singleton_sublist _ (le_trans h2)))
      (ite_singleton_sublist _ (le_trans h3)))
    (ite_singleton_sublist _ (le_trans h4))

lemma mem_qa_alerts_dashboard {db : DB} {sf : String} {tm tl ts tc : ℚ} {k : Nat} {a : Alert}
    (h : a ∈ qa_alerts_dashboard db sf tm tl ts tc k) :
    ∃ s ∈ db.surveys, s.status = normalizeStatus sf ∧ surveyAlert db tm tl ts tc s = some a := by
  simp only [qa_alerts_dashboard] at h
  have h1 := (List.take_sublist _ _).subset h
  rw [mem_sortByDesc] at h1
  rw [List.mem_filterMap] at h1
  obtain ⟨s, hs, hsa⟩ := h1
  rw [mem_sortByDesc, List.mem_filter] at hs
  exact ⟨s, hs.1, by simpa using hs.2, hsa⟩

lemma mkAlert_survey_id (db : DB) (tm tl ts tc : ℚ) (s : Survey) :
    (mkAlert db tm tl ts tc s).survey_id = s.id := rfl

end AlertEngine

section ExampleEval

lemma exDB_filter_sorted :
    sortByDesc (fun s : Survey => s.id)
      (exDB.surveys.filter (fun s => s.status == normalizeStatus "COMPLETED")) =
      [exS3, exS2, exS1] := by decide

lemma exDB_surveyAlert_s3 (tm tl ts tc : ℚ) : surveyAlert exDB tm tl ts tc exS3 = none := by
  have h : (sqlAggregate exDB exS3.id).total = 0 := by decide
  rw [surveyAlert_eq, if_pos h]

lemma exDB_surveyAlert_s1 (tl : ℚ) (htl : (0 : ℚ) < tl) :
    surveyAlert exDB 50 tl 101 101 exS1 = some exAlert1 := by
  have hagg : sqlAggregate exDB exS1.id = ⟨1, 1, 0, 0, 0⟩ := by decide
  have hfn : facilityNameOf exDB exS1.facility_id = "F" := by decide
  rw [surveyAlert_eq]
  simp only [mkAlert, hagg, hfn]
  norm_num [pctOf, alertFlags, exAlert1, exS1, not_le.mpr htl]

lemma exDB_surveyAlert_s2_hi : surveyAlert exDB 50 101 101 101 exS2 = none := by
  have hagg : sqlAggregate exDB exS2.id = ⟨1, 0, 1, 0, 0⟩ := by decide
  rw [surveyAlert_eq]
  simp only [mkAlert, hagg]
  norm_num [pctOf, alertFlags]

lemma exDB_surveyAlert_s2_lo : surveyAlert exDB 50 100 101 101 exS2 = some exAlert2 := by
  have hagg : sqlAggregate exDB exS2.id = ⟨1, 0, 1, 0, 0⟩ := by decide
  have hfn : facilityNameOf exDB exS2.facility_id = "F" := by decide
  rw [surveyAlert_eq]
  simp only [mkAlert, hagg, hfn]
  norm_num [pctOf, alertFlags, exAlert2, exS2]

lemma exDB_dash_hi (k : Nat) :
    qa_alerts_dashboard exDB "COMPLETED" 50 101 101 101 (k + 1) = [exAlert1] := by
  simp only [qa_alerts_dashboard, exDB_filter_sorted]
  simp only [List.filterMap_cons, List.filterMap_nil, exDB_surveyAlert_s3 50 101 101 101,
    exDB_surveyAlert_s2_hi, exDB_surveyAlert_s1 101 (by norm_num)]
  simp [sortByDesc, insertByDesc]

lemma exDB_dash_lo :
    qa_alerts_dashboard exDB "COMPLETED" 50 100 101 101 1 = [exAlert2] := by
  simp only [qa_alerts_dashboard, exDB_filter_sorted]
  simp only [List.filterMap_cons, List.filterMap_nil, exDB_surveyAlert_s3 50 100 101 101,
    exDB_surveyAlert_s2_lo, exDB_surveyAlert_s1 100 (by norm_num)]
  norm_num [sortByDesc, insertByDesc, exAlert1, exAlert2]

end ExampleEval

/-- C3: every alert returned by the Alert Engine carries exactly those tags
among MISSING, LOW_CONF, NO_SOURCE, NO_CONF (in that fixed order) whose
percentage `100 * count / total` meets its threshold with a
greater-or-equal comparison, and its severity is exactly the sum of the
four percentages. -/
theorem C3_flags_and_severity (db : DB) (sf : String) (tm tl ts tc : ℚ) (k : Nat)
    (a : Alert) (ha : a ∈ qa_alerts_dashboard db sf tm tl ts tc k) :
    (("MISSING" ∈ a.flags ↔
        pctOf (sqlAggregate db a.survey_id).missing (sqlAggregate db a.survey_id).total ≥ tm) ∧
     ("LOW_CONF" ∈ a.flags ↔
        pctOf (sqlAggregate db a.survey_id).low_conf (sqlAggregate db a.survey_id).total ≥ tl) ∧
     ("NO_SOURCE" ∈ a.flags ↔
        pctOf (sqlAggregate db a.survey_id).no_source (sqlAggregate db a.survey_id).total ≥ ts) ∧
     ("NO_CONF" ∈ a.flags ↔
        pctOf (sqlAggregate db a.survey_id).no_conf (sqlAggregate db a.survey_id).total ≥ tc)) ∧
    a.flags <+ ["MISSING", "LOW_CONF", "NO_SOURCE", "NO_CONF"] ∧
    a.severity =
      pctOf (sqlAggregate db a.survey_id).missing (sqlAggregate db a.survey_id).total
      + pctOf (sqlAggregate db a.survey_id).low_conf (sqlAggregate db a.survey_id).total
      + pctOf (sqlAggregate db a.survey_id).no_source (sqlAggregate db a.survey_id).total
      + pctOf (sqlAggregate db a.survey_id).no_conf (sqlAggregate db a.survey_id).total := by
  obtain ⟨s, _, _, hsa⟩ := mem_qa_alerts_dashboard ha
  obtain ⟨rfl, -, -⟩ := surveyAlert_some hsa
  rw [mkAlert_survey_id]
  refine ⟨⟨mem_alertFlags_missing, mem_alertFlags_low_conf,
    mem_alertFlags_no_source, mem_alertFlags_no_conf⟩, alertFlags_sublist .., rfl⟩

/-- C4: a survey with zero answers, and a survey whose four percentages
are all strictly below their thresholds, never contributes an alert to the
Alert Engine's output, whatever the status filter, thresholds and limit. -/
theorem C4_skip_rules (db : DB) (sf : String) (tm tl ts tc : ℚ) (k : Nat) (sid : Nat)
    (h : (sqlAggregate db sid).total = 0 ∨
      (pctOf (sqlAggregate db sid).missing (sqlAggregate db sid).total < tm ∧
       pctOf (sqlAggregate db sid).low_conf (sqlAggregate db sid).total < tl ∧
       pctOf (sqlAggregate db sid).no_source (sqlAggregate db sid).total < ts ∧
       pctOf (sqlAggregate db sid).no_conf (sqlAggregate db sid).total < tc)) :
    ∀ a ∈ qa_alerts_dashboard db sf tm tl ts tc k, a.survey_id ≠ sid := by
  intro a ha heq
  obtain ⟨s, _, _, hsa⟩ := mem_qa_alerts_dashboard ha
  obtain ⟨rfl, htot, hfl⟩ := surveyAlert_some hsa
  rw [mkAlert_survey_id] at heq
  subst heq
  rcases h with h | ⟨h1, h2, h3, h4⟩
  · exact htot h
  · exact hfl (alertFlags_eq_nil h1 h2 h3 h4)

/-- Witness: in the example store the alert for survey 1 is returned and
its severity is exactly the sum of its four percentages. -/
theorem C3_flags_and_severity_witness :
    exAlert1.severity =
      pctOf (sqlAggregate exDB exAlert1.survey_id).missing (sqlAggregate exDB exAlert1.survey_id).total
      + pctOf (sqlAggregate exDB exAlert1.survey_id).low_conf (sqlAggregate exDB exAlert1.survey_id).total
      + pctOf (sqlAggregate exDB exAlert1.survey_id).no_source (sqlAggregate exDB exAlert1.survey_id).total
      + pctOf (sqlAggregate exDB exAlert1.survey_id).no_conf (sqlAggregate exDB exAlert1.survey_id).total := by
  have hmem : exAlert1 ∈ qa_alerts_dashboard exDB "COMPLETED" 50 101 101 101 50 := by
    rw [show (50 : Nat) = 49 + 1 from rfl, exDB_dash_hi]
    exact List.mem_singleton_self _
  exact (C3_flags_and_severity exDB "COMPLETED" 50 101 101 101 50 exAlert1 hmem).2.2

/-- Witness: survey 3 of the example store has zero answers and is
absent from the alert output. -/
theorem C4_skip_rules_witness :
    3 ∉ (qa_alerts_dashboard exDB "COMPLETED" 20 20 10 10 50).map
      (fun a => a.survey_id) := by
  intro hmem
  rw [List.mem_map] at hmem
  obtain ⟨a, ha, h3⟩ := hmem
  exact C4_skip_rules exDB "COMPLETED" 20 20 10 10 50 3 (Or.inl (by decide)) a ha h3

/-- C5: when the stored surveys have pairwise distinct ids, the Alert
Engine output is sorted by severity descending, alerts of equal severity
appear in survey-id-descending order (the stable sort keeps the
newest-first scan order), and the output holds at most `limit` records. -/
theorem C5_ranking_and_limit (db : DB) (sf : String) (tm tl ts tc : ℚ) (k : Nat)
    (hids : db.surveys.Pairwise (fun s1 s2 => s1.id ≠ s2.id)) :
    (qa_alerts_dashboard db sf tm tl ts tc k).Pairwise
      (fun a b => b.severity ≤ a.severity) ∧
    (qa_alerts_dashboard db sf tm tl ts tc k).Pairwise
      (fun a b => a.severity = b.severity → b.survey_id < a.survey_id) ∧
    (qa_alerts_dashboard db sf tm tl ts tc k).length ≤ k := by
  simp only [qa_alerts_dashboard]
  refine ⟨List.Pairwise.sublist (List.take_sublist _ _) (sortByDesc_sorted _ _), ?_, ?_⟩
  · have h0 : (db.surveys.filter
        (fun s => s.status == normalizeStatus sf)).Pairwise
        (fun s1 s2 => s1.id ≠ s2.id) := hids.filter _
    have h1 : (sortByDesc (fun s : Survey => s.id)
        (db.surveys.filter (fun s => s.status == normalizeStatus sf))).Pairwise
        (fun s1 s2 => s2.id < s1.id) := by
      refine (sortByDesc_lex (fun s : Survey => s.id)
        (fun s1 s2 => s1.id ≠ s2.id) _ h0).imp ?_
      rintro s1 s2 (h | ⟨heq, hne⟩)
      · exact h
      · exact absurd heq hne
    have h2 : (List.filterMap (surveyAlert db tm tl ts tc)
        (sortByDesc (fun s : Survey => s.id)
          (db.surveys.filter (fun s => s.status == normalizeStatus sf)))).Pairwise
        (fun x y => y.survey_id < x.survey_id) := by
      rw [List.pairwise_filterMap]
      refine h1.imp ?_
      intro s1 s2 hlt b hb b' hb'
      rw [Option.mem_def] at hb hb'
      obtain ⟨rfl, -, -⟩ := surveyAlert_some hb
      obtain ⟨rfl, -, -⟩ := surveyAlert_some hb'
      rw [mkAlert_survey_id, mkAlert_survey_id]
      exact hlt
    refine List.Pairwise.sublist (List.take_sublist _ _)
      ((sortByDesc_lex (fun a : Alert => a.severity)
        (fun x y => y.survey_id < x.survey_id) _ h2).imp ?_)
    rintro a b (hlt | ⟨heq, hid⟩) hsev
    · exact absurd hsev (ne_of_gt hlt)
    · exact hid
  · exact List.length_take_le _ _

/-- Witness: the example store has pairwise distinct survey ids, so its
alert output is ranked and truncated as C5 states. -/
theorem C5_ranking_and_limit_witness :
    (qa_alerts_dashboard exDB "COMPLETED" 50 100 101 101 1).Pairwise
      (fun a b => b.severity ≤ a.severity) ∧
    (qa_alerts_dashboard exDB "COMPLETED" 50 100 101 101 1).Pairwise
      (fun a b => a.severity = b.severity → b.survey_id < a.survey_id) ∧
    (qa_alerts_dashboard exDB "COMPLETED" 50 100 101 101 1).length ≤ 1 :=
  C5_ranking_and_limit exDB "COMPLETED" 50 100 101 101 1 (by decide)

/-- C7 (amended): lowering thresholds (pointwise) never removes a flag
from a survey's computed alert — the old flag list is a sublist of the new
one, with severity and survey id unchanged — and never removes an alert
from the pre-truncation alert list (the output computed with limit at
least the number of stored surveys).  Membership in the truncated output
itself is not preserved: see the counterexample. -/
theorem C7_threshold_monotone (db : DB) (sf : String)
    (tm tl ts tc tm' tl' ts' tc' : ℚ) (k : Nat)
    (h1 : tm' ≤ tm) (h2 : tl' ≤ tl) (h3 : ts' ≤ ts) (h4 : tc' ≤ tc) :
    (∀ s : Survey, ∀ a : Alert, surveyAlert db tm tl ts tc s = some a →
      ∃ a', surveyAlert db tm' tl' ts' tc' s = some a' ∧
        a.flags <+ a'.flags ∧ a'.severity = a.severity ∧ a'.survey_id = a.survey_id) ∧
    (∀ a ∈ qa_alerts_dashboard db sf tm tl ts tc k,
      ∃ a', a' ∈ qa_alerts_dashboard db sf tm' tl' ts' tc' db.surveys.length ∧
        a.flags <+ a'.flags ∧ a'.severity = a.severity ∧ a'.survey_id = a.survey_id) := by
  have key : ∀ s a, surveyAlert db tm tl ts tc s = some a →
      surveyAlert db tm' tl' ts' tc' s = some (mkAlert db tm' tl' ts' tc' s) ∧
      a.flags <+ (mkAlert db tm' tl' ts' tc' s).flags ∧
      (mkAlert db tm' tl' ts' tc' s).severity = a.severity ∧
      (mkAlert db tm' tl' ts' tc' s).survey_id = a.survey_id := by
    intro s a hsa
    obtain ⟨rfl, htot, hfl⟩ := surveyAlert_some hsa
    have hsub : (mkAlert db tm tl ts tc s).flags <+ (mkAlert db tm' tl' ts' tc' s).flags := by
      simp only [mkAlert]
      exact alertFlags_mono h1 h2 h3 h4
    have hfl' : (mkAlert db tm' tl' ts' tc' s).flags ≠ [] := by
      intro h0
      exact hfl (List.sublist_nil.mp (h0 ▸ hsub))
    refine ⟨?_, hsub, rfl, rfl⟩
    rw [surveyAlert_eq, if_neg htot, if_neg hfl']
  constructor
  · intro s a hsa
    obtain ⟨hsome, hsub, hsev, hid⟩ := key s a hsa
    exact ⟨_, hsome, hsub, hsev, hid⟩
  · intro a ha
    obtain ⟨s, hs, hstat, hsa⟩ := mem_qa_alerts_dashboard ha
    obtain ⟨hsome, hsub, hsev, hid⟩ := key s a hsa
    refine ⟨mkAlert db tm' tl' ts' tc' s, ?_, hsub, hsev, hid⟩
    have hlen : (sortByDesc (fun a : Alert => a.severity)
        (List.filterMap (surveyAlert db tm' tl' ts' tc')
          (sortByDesc (fun s : Survey => s.id)
            (db.surveys.filter (fun s => s.status == normalizeStatus sf))))).length
        ≤ db.surveys.length := by
      rw [length_sortByDesc]
      refine le_trans (List.length_filterMap_le _ _) ?_
      rw [length_sortByDesc]
      exact List.length_filter_le _ _
    simp only [qa_alerts_dashboard]
    rw [List.take_of_length_le hlen, mem_sortByDesc, List.mem_filterMap]
    refine ⟨s, ?_, hsome⟩
    rw [mem_sortByDesc, List.mem_filter]
    exact ⟨hs, by simp [hstat]⟩

/-- Counterexample to C7 as stated: with limit 1, raising nothing but
lowering the low-confidence threshold from 101 to 100 admits survey 2
(severity 100, newer id) and pushes the previously returned survey-1 alert
out of the truncated output. -/
theorem C7_limit_counterexample :
    (∃ a ∈ qa_alerts_dashboard exDB "COMPLETED" 50 101 101 101 1, a.survey_id = 1) ∧
    ¬ (∃ a ∈ qa_alerts_dashboard exDB "COMPLETED" 50 100 101 101 1, a.survey_id = 1) := by
  constructor
  · rw [show (1 : Nat) = 0 + 1 from rfl, exDB_dash_hi]
    exact ⟨exAlert1, List.mem_singleton_self _, rfl⟩
  · rw [exDB_dash_lo]
    rintro ⟨a, ha, hid⟩
    rw [List.mem_singleton] at ha
    subst ha
    exact absurd hid (by norm_num [exAlert2])

/-- Witness: lowering the low-confidence threshold keeps the survey-1
alert, with its flags, severity and id intact. -/
theorem C7_threshold_monotone_witness :
    ∃ a', surveyAlert exDB 50 100 101 101 exS1 = some a' ∧
      exAlert1.flags <+ a'.flags ∧ a'.severity = exAlert1.severity ∧
      a'.survey_id = exAlert1.survey_id :=
  (C7_threshold_monotone exDB "COMPLETED" 50 101 101 101 50 100 101 101 1
    (le_refl _) (by norm_num) (le_refl _) (le_refl _)).1 exS1 exAlert1
    (exDB_surveyAlert_s1 101 (by norm_num))

section CountLemmas

lemma sum_eq_countP_one : ∀ l : List Nat, (∀ x ∈ l, x ≤ 1) →
    l.sum = l.countP (fun x => x == 1)
  | [], _ => rfl
  | x :: xs, h => by
    rw [List.sum_cons, List.countP_cons,
      sum_eq_countP_one xs (fun y hy => h y (List.mem_cons_of_mem x hy))]
    have hx1 : x ≤ 1 := h x (List.mem_cons_self x xs)
    have hx : x = 0 ∨ x = 1 := by omega
    rcases hx with rfl | rfl <;> simp [Nat.add_comm]

lemma countP_add_countP_not (p : α → Bool) : ∀ l : List α,
    l.countP p + l.countP (fun a => !(p a)) = l.length
  | [] => rfl
  | x :: xs => by
    rw [List.countP_cons, List.countP_cons, List.length_cons]
    cases hp : p x <;>
      simp [hp, ← countP_add_countP_not p xs] <;> omega

end CountLemmas

/-- C2 (amended): the five counts of the Alert Engine's dedicated SQL
aggregate agree with the Quality Summary Calculator on every survey whose
answer rows are canonical: `is_missing` in {0, 1}, `answer_source` and
`confidence_level` free of surrounding whitespace, and a `confidence_level`
that upper-cases to LOW only when it is exactly the string LOW.  In general
they differ: the SQL aggregate compares `confidence_level='LOW'`
case-sensitively and tests `answer_source` against NULL and the empty
string only, while the calculator strips and upper-cases first — see the
counterexample. -/
theorem C2_aggregate_equivalence (db : DB) (sid : Nat)
    (h : ∀ a ∈ answersOf db sid,
      a.is_missing ≤ 1 ∧
      pyStrip (orBlank a.answer_source) = orBlank a.answer_source ∧
      pyStrip (orBlank a.confidence_level) = orBlank a.confidence_level ∧
      (pyUpper (orBlank a.confidence_level) = "LOW" → a.confidence_level = some "LOW")) :
    (sqlAggregate db sid).total = (qualitySummary (answersOf db sid)).total_answers ∧
    (sqlAggregate db sid).missing = (qualitySummary (answersOf db sid)).missing_count ∧
    (sqlAggregate db sid).low_conf = (qualitySummary (answersOf db sid)).low_confidence_count ∧
    (sqlAggregate db sid).no_source = (qualitySummary (answersOf db sid)).no_source_count ∧
    (sqlAggregate db sid).no_conf = (qualitySummary (answersOf db sid)).no_confidence_count := by
  refine ⟨rfl, ?_, ?_, ?_, ?_⟩ <;> simp only [sqlAggregate, qualitySummary]
  · rw [sum_eq_countP_one _ ?hle, List.countP_map]
    case hle =>
      intro x hx
      rw [List.mem_map] at hx
      obtain ⟨a, ha, rfl⟩ := hx
      exact (h a ha).1
    rfl
  · refine List.countP_congr ?_
    intro a ha
    obtain ⟨-, -, hcstrip, hlow⟩ := h a ha
    simp only [beq_iff_eq, hcstrip]
    exact ⟨fun hc => by rw [hc]; decide, hlow⟩
  · refine List.countP_congr ?_
    intro a ha
    obtain ⟨-, hsstrip, -, -⟩ := h a ha
    simp only [beq_iff_eq, Bool.or_eq_true, hsstrip]
    cases a.answer_source <;> simp [orBlank]
  · refine List.countP_congr ?_
    intro a ha
    obtain ⟨-, -, hcstrip, -⟩ := h a ha
    simp only [beq_iff_eq, Bool.or_eq_true, hcstrip]
    cases a.confidence_level <;> simp [orBlank]

/-- Counterexample to C2 as stated: an answer whose confidence is written
`"low"` is counted as low confidence by the Quality Summary Calculator but
not by the case-sensitive SQL aggregate. -/
theorem C2_counterexample :
    (sqlAggregate cexC2db 1).low_conf = 0 ∧
    (qualitySummary (answersOf cexC2db 1)).low_confidence_count = 1 := by decide

/-- Witness: on the canonical example store the two computations of the
low-confidence count agree. -/
theorem C2_aggregate_equivalence_witness :
    (sqlAggregate exDB 1).low_conf = (qualitySummary (answersOf exDB 1)).low_confidence_count :=
  (C2_aggregate_equivalence exDB 1 (by decide)).2.2.1

/-- C6: the Quality Summary Calculator is a pure, order-independent
reduction: permuting the answer list leaves the summary unchanged, the
empty list yields the all-zero summary, the five fields are exactly the
stated counts, the total splits into missing plus present-and-not-missing,
and every sub-count is bounded by the total. -/
theorem C6_quality_summary (l l' : List Answer) (hperm : List.Perm l l') :
    qualitySummary l = qualitySummary l' ∧
    qualitySummary ([] : List Answer) = ⟨0, 0, 0, 0, 0⟩ ∧
    (qualitySummary l).total_answers = l.length ∧
    (qualitySummary l).missing_count = l.countP (fun a => a.is_missing == 1) ∧
    (qualitySummary l).low_confidence_count =
      l.countP (fun a => pyUpper (pyStrip (orBlank a.confidence_level)) == "LOW") ∧
    (qualitySummary l).no_source_count =
      l.countP (fun a => pyStrip (orBlank a.answer_source) == "") ∧
    (qualitySummary l).no_confidence_count =
      l.countP (fun a => pyStrip (orBlank a.confidence_level) == "") ∧
    (qualitySummary l).total_answers =
      (qualitySummary l).missing_count + l.countP (fun a => !(a.is_missing == 1)) ∧
    (qualitySummary l).missing_count ≤ (qualitySummary l).total_answers ∧
    (qualitySummary l).low_confidence_count ≤ (qualitySummary l).total_answers ∧
    (qualitySummary l).no_source_count ≤ (qualitySummary l).total_answers ∧
    (qualitySummary l).no_confidence_count ≤ (qualitySummary l).total_answers := by
  refine ⟨?_, rfl, rfl, rfl, rfl, rfl, rfl, ?_, ?_, ?_, ?_, ?_⟩
  · simp only [qualitySummary, hperm.length_eq, hperm.countP_eq]
  · simp only [qualitySummary]
    rw [countP_add_countP_not]
  · exact List.countP_le_length _
  · exact List.countP_le_length _
  · exact List.countP_le_length _
  · exact List.countP_le_length _

/-- Witness: the summary of the two example answers is invariant under
swapping them. -/
theorem C6_quality_summary_witness :
    qualitySummary [exA1, exA2] = qualitySummary [exA2, exA1] :=
  (C6_quality_summary [exA1, exA2] [exA2, exA1] (by decide)).1

/-- C8 (amended): `get_survey_details` raises NotFound exactly when no
stored survey has the requested id with a facility row matching its
`facility_id` (the header query joins `facilities`, so a survey with a
dangling `facility_id` also raises); on success it returns the answer rows
ordered by answer id — the insertion order, since ids autoincrement — and
the quality summary computed over exactly those rows. -/
theorem C8_details (db : DB) (sid : Nat)
    (hids : db.surveys.Pairwise (fun s1 s2 => s1.id ≠ s2.id)) :
    ((∃ r, get_survey_details db sid = .ok r) ↔
      ∃ s ∈ db.surveys, s.id = sid ∧ ∃ f ∈ db.facilities, f.id = s.facility_id) ∧
    (∀ e, get_survey_details db sid = .error e → e = "Survey not found.") ∧
    (∀ hd ans qa, get_survey_details db sid = .ok (hd, ans, qa) →
      ans = sortByAsc (fun a : Answer => a.id) (answersOf db sid) ∧
      qa = qualitySummary ans ∧
      (db.answers.Pairwise (fun a1 a2 => a1.id < a2.id) → ans = answersOf db sid)) := by
  have hanswers : db.answers.Pairwise (fun a1 a2 => a1.id < a2.id) →
      sortByAsc (fun a : Answer => a.id) (answersOf db sid) = answersOf db sid := by
    intro hp
    exact sortByAsc_eq_self _ _ (((hp.filter _).imp (fun h => le_of_lt h)))
  cases hs : db.surveys.find? (fun s => s.id == sid) with
  | none =>
    have hgsd : get_survey_details db sid = .error "Survey not found." := by
      simp only [get_survey_details, hs]
    have hno : ∀ s ∈ db.surveys, s.id ≠ sid := by
      intro s hsm heq
      have := List.find?_eq_none.mp hs s hsm
      simp [heq] at this
    refine ⟨?_, ?_, ?_⟩
    · rw [hgsd]
      constructor
      · rintro ⟨r, hr⟩
        exact absurd hr (by simp)
      · rintro ⟨s, hsm, hsid, -⟩
        exact absurd hsid (hno s hsm)
    · intro e he
      rw [hgsd] at he
      exact (Except.error.inj he).symm
    · intro hd ans qa hok
      rw [hgsd] at hok
      exact absurd hok (by simp)
  | some s =>
    have hsmem : s ∈ db.surveys := List.mem_of_find?_eq_some hs
    have hsid : s.id = sid := by simpa using List.find?_some hs
    cases hf : db.facilities.find? (fun f => f.id == s.facility_id) with
    | none =>
      have hgsd : get_survey_details db sid = .error "Survey not found." := by
        simp only [get_survey_details, hs, hf]
      have hnof : ∀ f ∈ db.facilities, f.id ≠ s.facility_id := by
        intro f hfm heq
        have := List.find?_eq_none.mp hf f hfm
        simp [heq] at this
      refine ⟨?_, ?_, ?_⟩
      · rw [hgsd]
        constructor
        · rintro ⟨r, hr⟩
          exact absurd hr (by simp)
        · rintro ⟨s', hs'm, hs'id, f, hfm, hfid⟩
          have hss : s' = s := by
            by_contra hne
            exact (List.Pairwise.forall (by intro x y hxy heq; exact hxy heq.symm) hids hs'm hsmem hne)
              (hs'id.trans hsid.symm)
          subst hss
          exact absurd hfid (hnof f hfm)
      · intro e he
        rw [hgsd] at he
        exact (Except.error.inj he).symm
      · intro hd ans qa hok
        rw [hgsd] at hok
        exact absurd hok (by simp)
    | some f =>
      have hfmem : f ∈ db.facilities := List.mem_of_find?_eq_some hf
      have hfid : f.id = s.facility_id := by simpa using List.find?_some hf
      have hgsd : get_survey_details db sid =
          .ok ({ sid := s.id, facility_id := s.facility_id, facility_name := f.name
                 template_id := s.template_id, survey_type := s.survey_type
                 enumerator_name := s.enumerator_name, status := s.status
                 created_at := s.created_at },
               sortByAsc (fun a : Answer => a.id) (answersOf db sid),
               qualitySummary (sortByAsc (fun a : Answer => a.id) (answersOf db sid))) := by
        simp only [get_survey_details, hs, hf]
      refine ⟨?_, ?_, ?_⟩
      · rw [hgsd]
        exact ⟨fun _ => ⟨s, hsmem, hsid, f, hfmem, hfid⟩, fun _ => ⟨_, rfl⟩⟩
      · intro e he
        rw [hgsd] at he
        exact absurd he (by simp)
      · intro hd ans qa hok
        rw [hgsd] at hok
        have h := Except.ok.inj hok
        simp only [Prod.mk.injEq] at h
        obtain ⟨-, h2, h3⟩ := h
        subst h2
        subst h3
        exact ⟨rfl, rfl, hanswers⟩

/-- Counterexample to C8 as stated: survey 1 exists in the store, but its
`facility_id` 99 matches no facility, so the joined header query comes
back empty and `get_survey_details` raises NotFound anyway. -/
theorem C8_counterexample :
    (∃ s ∈ cexC8db.surveys, s.id = 1) ∧
    get_survey_details cexC8db 1 = .error "Survey not found." := by
  constructor
  · exact ⟨_, List.mem_singleton_self _, rfl⟩
  · rfl

/-- Witness: in the example store survey 1 and its facility exist, so the
detail lookup succeeds. -/
theorem C8_details_witness :
    ∃ r, get_survey_details exDB 1 = .ok r :=
  (C8_details exDB 1 (by decide)).1.mpr ⟨exS1, by decide, rfl, ⟨1, "F"⟩, by decide, rfl⟩

section StatusMachine

lemma add_answer_surveys (st : StoreState) (sid : Nat) (q a : String)
    (tqid : Option Nat) (src conf : Option String) (miss : Nat) (reason : Option String)
    (now : String) :
    ((add_answer st sid q a tqid src conf miss reason now).1).db.surveys = st.db.surveys := by
  simp only [add_answer]
  split_ifs <;> rfl

lemma statusOf_complete_survey (st : StoreState) (t sid : Nat) :
    statusOf (complete_survey st t) sid =
      (st.db.surveys.find? (fun s => s.id == sid)).map
        (fun s => if s.id == t then "COMPLETED" else s.status) := by
  simp only [statusOf, complete_survey]
  rw [List.find?_map]
  have hpf : ((fun s : Survey => s.id == sid) ∘
      (fun s : Survey => if s.id == t then { s with status := "COMPLETED" } else s))
      = (fun s : Survey => s.id == sid) := by
    funext a
    by_cases hq : a.id == t <;> simp [Function.comp, hq]
  rw [hpf]
  simp only [Option.map_map]
  congr 1
  funext a
  by_cases hq : a.id == t <;> simp [Function.comp, hq]

lemma statusOf_applyOp_completed (st : StoreState) (op : Op) (sid : Nat)
    (h : statusOf st sid = some "COMPLETED") :
    statusOf (applyOp st op) sid = some "COMPLETED" := by
  obtain ⟨s, hs, hstat⟩ := Option.map_eq_some'.mp h
  cases op with
  | createSurvey fid ty en tid now =>
    simp only [applyOp, create_survey, statusOf, List.find?_append]
    rw [hs]
    simp [hstat]
  | addAnswer sid2 q a tqid src conf miss reason now =>
    simp only [statusOf, applyOp, add_answer_surveys]
    rw [hs]
    simp [hstat]
  | completeSurvey t =>
    simp only [applyOp]
    rw [statusOf_complete_survey, hs]
    by_cases h2 : s.id == t <;> simp [h2, hstat]
  | addFacility name =>
    simp only [applyOp, add_facility, statusOf]
    rw [hs]
    simp [hstat]

lemma statusOf_applyOps_completed (ops : List Op) : ∀ (st : StoreState) (sid : Nat),
    statusOf st sid = some "COMPLETED" →
    statusOf (applyOps st ops) sid = some "COMPLETED" := by
  induction ops with
  | nil => exact fun st sid h => h
  | cons op rest ih =>
    intro st sid h
    exact ih (applyOp st op) sid (statusOf_applyOp_completed st op sid h)

lemma statusOf_applyOp_cases (st : StoreState) (op : Op) (sid : Nat) :
    statusOf (applyOp st op) sid = statusOf st sid ∨
    statusOf (applyOp st op) sid = some "COMPLETED" ∨
    (statusOf st sid = none ∧ statusOf (applyOp st op) sid = some "DRAFT") := by
  cases op with
  | addAnswer sid2 q a tqid src conf miss reason now =>
    left
    simp only [statusOf, applyOp, add_answer_surveys]
  | addFacility name =>
    left
    rfl
  | completeSurvey t =>
    simp only [applyOp]
    rw [statusOf_complete_survey]
    cases hs : st.db.surveys.find? (fun s => s.id == sid) with
    | none =>
      left
      simp [statusOf, hs]
    | some s =>
      by_cases h2 : s.id = t
      · right
        left
        simp [h2]
      · left
        simp [statusOf, hs, h2]
  | createSurvey fid ty en tid now =>
    simp only [applyOp, create_survey, statusOf, List.find?_append]
    cases hs : st.db.surveys.find? (fun s => s.id == sid) with
    | none =>
      by_cases h2 : st.next_survey_id == sid
      · right
        right
        constructor
        · simp [statusOf, hs]
        · simp [hs, h2]
      · left
        simp [statusOf, hs, h2]
    | some s =>
      left
      simp [statusOf, hs]

end StatusMachine

/-- C9: surveys are created with status DRAFT, the only status mutation
the store operations offer is completion (which writes COMPLETED), and
along any sequence of store operations a COMPLETED survey stays
COMPLETED — a step either leaves a survey's status unchanged, sets it to
COMPLETED, or creates it as DRAFT. -/
theorem C9_status_monotonic (st : StoreState) (facility_id : Nat)
    (survey_type enumerator_name now : String) (template_id : Option Nat)
    (sid : Nat) (op : Op) (ops : List Op) :
    ((∀ s ∈ st.db.surveys, s.id ≠ st.next_survey_id) →
      statusOf (create_survey st facility_id survey_type enumerator_name template_id now).1
        st.next_survey_id = some "DRAFT") ∧
    (statusOf st sid = some "COMPLETED" → statusOf (applyOp st op) sid = some "COMPLETED") ∧
    (statusOf st sid = some "COMPLETED" → statusOf (applyOps st ops) sid = some "COMPLETED") ∧
    (statusOf (applyOp st op) sid = statusOf st sid ∨
     statusOf (applyOp st op) sid = some "COMPLETED" ∨
     (statusOf st sid = none ∧ statusOf (applyOp st op) sid = some "DRAFT")) := by
  refine ⟨?_, statusOf_applyOp_completed st op sid, statusOf_applyOps_completed ops st sid,
    statusOf_applyOp_cases st op sid⟩
  intro hfresh
  simp only [create_survey, statusOf, List.find?_append]
  have hnone : st.db.surveys.find? (fun s => s.id == st.next_survey_id) = none := by
    rw [List.find?_eq_none]
    intro x hx
    simp [hfresh x hx]
  rw [hnone]
  simp

/-- Witness: completing survey 2 of the example store leaves the already
COMPLETED survey 1 COMPLETED. -/
theorem C9_status_monotonic_witness :
    statusOf (applyOps exState [Op.completeSurvey 2]) 1 = some "COMPLETED" :=
  (C9_status_monotonic exState 1 "T" "E" "t" none 1
    (Op.completeSurvey 2) [Op.completeSurvey 2]).2.2.1 (by decide)

/-- C10: `add_answer` raises exactly when the stripped question is blank,
or when the stripped answer is blank while `is_missing` is falsy — leaving
the store untouched — and otherwise appends one answer row holding the
stripped question and answer and returns the new row id. -/
theorem C10_add_answer (st : StoreState) (sid : Nat) (question answer : String)
    (tqid : Option Nat) (src conf : Option String) (miss : Nat) (reason : Option String)
    (now : String) :
    (pyStrip question = "" →
      add_answer st sid question answer tqid src conf miss reason now =
        (st, .error "question is required")) ∧
    (pyStrip question ≠ "" → pyStrip answer = "" → miss = 0 →
      add_answer st sid question answer tqid src conf miss reason now =
        (st, .error "answer is required unless is_missing=1")) ∧
    (pyStrip question ≠ "" → (pyStrip answer ≠ "" ∨ miss ≠ 0) →
      add_answer st sid question answer tqid src conf miss reason now =
        ({ st with
            db := { st.db with answers := st.db.answers ++
              [{ id := st.next_answer_id, survey_id := sid, template_question_id := tqid
                 question := pyStrip question, answer := pyStrip answer
                 answer_source := src, confidence_level := conf
                 is_missing := miss, missing_reason := reason, created_at := now }] }
            next_answer_id := st.next_answer_id + 1 },
         .ok st.next_answer_id)) := by
  refine ⟨?_, ?_, ?_⟩
  · intro hq
    simp only [add_answer]
    rw [if_pos hq]
  · intro hq ha hm
    simp only [add_answer]
    rw [if_neg hq, if_pos ⟨ha, hm⟩]
  · intro hq hcase
    have hcond : ¬ (pyStrip answer = "" ∧ miss = 0) := by
      rintro ⟨ha, hm⟩
      rcases hcase with h | h
      · exact h ha
      · exact h hm
    simp only [add_answer]
    rw [if_neg hq, if_neg hcond]

/-- Witness: a whitespace-only question is rejected with the store
unchanged. -/
theorem C10_add_answer_witness :
    add_answer exState 1 " " "x" none none none 0 none "t" =
      (exState, .error "question is required") :=
  (C10_add_answer exState 1 " " "x" none none none 0 none "t").1 (by decide)

section EnumPerfLemmas

lemma enumPerfRecord_eq (db : DB) (sf : String) (tm tl ts tc : ℚ) (e : String) :
    enumPerfRecord db sf tm tl ts tc e =
      if (enumAgg db sf e).total = 0 then none
      else if (mkEnumPerf db sf tm tl ts tc e).flags = [] then none
      else some (mkEnumPerf db sf tm tl ts tc e) := rfl

lemma enumPerfRecord_some {db : DB} {sf : String} {tm tl ts tc : ℚ} {e : String}
    {r : EnumPerf} (h : enumPerfRecord db sf tm tl ts tc e = some r) :
    r = mkEnumPerf db sf tm tl ts tc e ∧ (enumAgg db sf e).total ≠ 0 ∧ r.flags ≠ [] := by
  rw [enumPerfRecord_eq] at h
  split_ifs at h with h1 h2
  refine ⟨(Option.some.inj h).symm, h1, ?_⟩
  exact (Option.some.inj h) ▸ h2

lemma mkEnumPerf_name (db : DB) (sf : String) (tm tl ts tc : ℚ) (e : String) :
    (mkEnumPerf db sf tm tl ts tc e).enumerator_name = e := rfl

end EnumPerfLemmas

/-- C1 (spec-modelled): the Enumerator Performance Aggregator returns at
most `limit` records, one per enumerator (pairwise distinct names), sorted
by severity descending; every record belongs to an enumerator of a survey
matching the status filter and is the record obtained by aggregating the
union of that enumerator's answers and applying the Alert Engine's
percentage, flag and severity rules, with both skip rules enforced
(nonzero total, nonempty flags). -/
theorem C1_enumerator_performance (db : DB) (sf : String) (tm tl ts tc : ℚ) (k : Nat) :
    (enumerator_performance_dashboard db sf tm tl ts tc k).Pairwise
      (fun r1 r2 => r1.enumerator_name ≠ r2.enumerator_name) ∧
    (enumerator_performance_dashboard db sf tm tl ts tc k).Pairwise
      (fun r1 r2 => r2.severity ≤ r1.severity) ∧
    (enumerator_performance_dashboard db sf tm tl ts tc k).length ≤ k ∧
    (∀ r ∈ enumerator_performance_dashboard db sf tm tl ts tc k,
      (∃ s ∈ db.surveys, s.status = normalizeStatus sf ∧
        s.enumerator_name = r.enumerator_name) ∧
      enumPerfRecord db (normalizeStatus sf) tm tl ts tc r.enumerator_name = some r ∧
      r = mkEnumPerf db (normalizeStatus sf) tm tl ts tc r.enumerator_name ∧
      r.flags ≠ [] ∧
      (enumAgg db (normalizeStatus sf) r.enumerator_name).total ≠ 0) := by
  simp only [enumerator_performance_dashboard]
  refine ⟨?_, ?_, ?_, ?_⟩
  · have hnames : (((matchingSurveys db (normalizeStatus sf)).map
        (fun s => s.enumerator_name)).dedup).Pairwise (fun a b => a ≠ b) :=
      List.nodup_dedup _
    have hrec : (List.filterMap (enumPerfRecord db (normalizeStatus sf) tm tl ts tc)
        (((matchingSurveys db (normalizeStatus sf)).map
          (fun s => s.enumerator_name)).dedup)).Pairwise
        (fun r1 r2 => r1.enumerator_name ≠ r2.enumerator_name) := by
      rw [List.pairwise_filterMap]
      refine hnames.imp ?_
      intro e1 e2 hne r1 h1 r2 h2
      rw [Option.mem_def] at h1 h2
      obtain ⟨rfl, -, -⟩ := enumPerfRecord_some h1
      obtain ⟨rfl, -, -⟩ := enumPerfRecord_some h2
      simpa [mkEnumPerf_name] using hne
    refine List.Pairwise.sublist (List.take_sublist _ _) ?_
    exact ((sortByDesc_perm (fun r : EnumPerf => r.severity) _).pairwise_iff
      (by intro x y h; exact h.symm)).mpr hrec
  · exact List.Pairwise.sublist (List.take_sublist _ _) (sortByDesc_sorted _ _)
  · exact List.length_take_le _ _
  · intro r hr
    have h1 := (List.take_sublist _ _).subset hr
    rw [mem_sortByDesc, List.mem_filterMap] at h1
    obtain ⟨e, he, hrec⟩ := h1
    obtain ⟨rfl, htot, hfl⟩ := enumPerfRecord_some hrec
    rw [List.mem_dedup, List.mem_map] at he
    obtain ⟨s, hsm, hname⟩ := he
    simp only [matchingSurveys, List.mem_filter] at hsm
    refine ⟨⟨s, hsm.1, by simpa using hsm.2, by rw [mkEnumPerf_name]; exact hname⟩,
      by rw [mkEnumPerf_name]; exact hrec, by rw [mkEnumPerf_name], hfl, htot⟩

section EnumExampleEval

lemma exDB_enum_names :
    (((matchingSurveys exDB (normalizeStatus "COMPLETED")).map
      (fun s => s.enumerator_name)).dedup) = ["E1", "E2", "E3"] := by decide

lemma exDB_enumRecord_E1 :
    enumPerfRecord exDB (normalizeStatus "COMPLETED") 50 101 101 101 "E1" = some exEnum1 := by
  have hagg : enumAgg exDB (normalizeStatus "COMPLETED") "E1" = ⟨1, 1, 0, 0, 0⟩ := by decide
  rw [enumPerfRecord_eq]
  simp only [mkEnumPerf, hagg]
  norm_num [pctOf, alertFlags, exEnum1]

lemma exDB_enumRecord_E2 :
    enumPerfRecord exDB (normalizeStatus "COMPLETED") 50 101 101 101 "E2" = none := by
  have hagg : enumAgg exDB (normalizeStatus "COMPLETED") "E2" = ⟨1, 0, 1, 0, 0⟩ := by decide
  rw [enumPerfRecord_eq]
  simp only [mkEnumPerf, hagg]
  norm_num [pctOf, alertFlags]

lemma exDB_enumRecord_E3 :
    enumPerfRecord exDB (normalizeStatus "COMPLETED") 50 101 101 101 "E3" = none := by
  have h : (enumAgg exDB (normalizeStatus "COMPLETED") "E3").total = 0 := by decide
  rw [enumPerfRecord_eq, if_pos h]

lemma exDB_enum_dash :
    enumerator_performance_dashboard exDB "COMPLETED" 50 101 101 101 1 = [exEnum1] := by
  simp only [enumerator_performance_dashboard, exDB_enum_names]
  simp only [List.filterMap_cons, List.filterMap_nil, exDB_enumRecord_E1,
    exDB_enumRecord_E2, exDB_enumRecord_E3]
  simp [sortByDesc, insertByDesc]

end EnumExampleEval

/-- Witness: enumerator E1's record is returned by the dashboard on the
example store and equals the record aggregated from E1's answers. -/
theorem C1_enumerator_performance_witness :
    enumPerfRecord exDB (normalizeStatus "COMPLETED") 50 101 101 101
      exEnum1.enumerator_name = some exEnum1 :=
  ((C1_enumerator_performance exDB "COMPLETED" 50 101 101 101 1).2.2.2 exEnum1
    (by rw [exDB_enum_dash]; exact List.mem_singleton_self _)).2.1

end OpenField
